import Mathlib

/-!
Verification of the store-action binding transformation taught by this
repository (redux `bindActionCreators`, `mapDispatchToProps`,
`mapStateToProps`, and the connecting layer conventions documented in
`src/README.md` and `src/src/App.js`).

JavaScript values are embedded as the inductive `Value`; a JS object is an
association list of string keys.  Calls made by a bound wrapper are made
observable through an explicit event trace (`Ev`): invoking a wrapper
returns both its result and the list of calls it performed, in order.
A dispatch function may raise, which is embedded as `Except Value Value`
(JavaScript throws arbitrary values).
-/

/-- Embedded JavaScript value: undefined, null, integers, strings, arrays
and plain objects (association lists of fields, in insertion order). -/
inductive Value where
  | vundef : Value
  | vnull : Value
  | vint : Int → Value
  | vstr : String → Value
  | varr : List Value → Value
  | vobj : List (String × Value) → Value

/-- JavaScript property access `o[k]` on an association-list object:
the first field with the given key, or `undefined` when absent. -/
def getField : List (String × Value) → String → Value
  | [], _ => Value.vundef
  | (k, v) :: rest, key => if k = key then v else getField rest key

/-- A pure action creator: variadic arguments in, one action descriptor out
(spec §3: `Args... -> ActionDescriptor`, no side effects). -/
def ActionCreator : Type := List Value → Value

/-- The injected dispatch capability.  It receives an action descriptor and
either returns a value or raises (`Except.error e` embeds a JS `throw e`). -/
def DispatchFn : Type := Value → Except Value Value

/-- A map from logical action name to action creator, as authored in the
lessons (`{ addItem: addItem }` in `src/src/App.js` line 28). -/
def ActionCreatorMap : Type := List (String × ActionCreator)

/-- An observable call event: either an action creator being invoked with
its argument list, or dispatch being invoked with a descriptor. -/
inductive Ev where
  | creatorCall : String → List Value → Ev
  | dispatchCall : Value → Ev

/-- A bound wrapper: invoked with an argument list, it produces the value
returned to the caller (or the raised error) together with the ordered
trace of calls it performed. -/
def BoundWrapper : Type := List Value → Except Value Value × List Ev

/-- The wrapper produced for one entry, embedded from the body shown in
`src/README.md` lines 431-435 / `src/unnamed/part_000` lines 431-435:
`function () { return dispatch(actionCreator.apply(undefined, arguments)); }`.
The creator is applied to the full argument list, its descriptor is passed
to dispatch, and whatever dispatch yields is returned; both calls are
recorded in the trace in order. -/
def boundWrapper (key : String) (creator : ActionCreator) (dispatch : DispatchFn) :
    BoundWrapper :=
  fun args =>
    let descriptor := creator args
    (dispatch descriptor, [Ev.creatorCall key args, Ev.dispatchCall descriptor])

/-- `bindActionCreators`.  The per-key wrapper body is quoted in
`src/README.md` lines 431-435; the traversal is modelled from the spec:
"given a collection of action-creator functions and a dispatch function,
produces a same-shaped collection of ... wrapper functions" (spec §2), the
redux implementation itself not being part of this repository.  The second
component is the trace of calls performed during construction: building the
closures calls nothing, so it is empty. -/
def bindActionCreators (M : ActionCreatorMap) (D : DispatchFn) :
    List (String × BoundWrapper) × List Ev :=
  (M.map fun kv => (kv.1, boundWrapper kv.1 kv.2 D), [])

/-- First-match association-list lookup (JS object keys are unique within a
map, spec §3, so first match is the only match). -/
def lookupKey {α : Type} : List (String × α) → String → Option α
  | [], _ => none
  | (k, v) :: rest, key => if k = key then some v else lookupKey rest key

/-- The creator calls recorded in a trace, in order, with their key and
argument list. -/
def creatorCallsOf (t : List Ev) : List (String × List Value) :=
  t.filterMap fun e =>
    match e with
    | Ev.creatorCall k a => some (k, a)
    | Ev.dispatchCall _ => none

/-- The dispatch calls recorded in a trace, in order, with their
descriptor argument. -/
def dispatchCallsOf (t : List Ev) : List Value :=
  t.filterMap fun e =>
    match e with
    | Ev.creatorCall _ _ => none
    | Ev.dispatchCall d => some d

/-- `n` successive invocations of a wrapper with the same arguments; the
traces of the individual invocations are concatenated in order. -/
def invokeN (w : BoundWrapper) (A : List Value) : Nat → List Ev
  | 0 => []
  | Nat.succ n => (w A).2 ++ invokeN w A n

/-- `mapStateToProps`, embedded from `src/src/App.js` lines 23-25:
`function mapStateToProps(state){ return {items: state.items} }`. -/
def mapStateToProps (state : List (String × Value)) : List (String × Value) :=
  [("items", getField state "items")]

/-- Modelled from the spec: the connecting layer's default when no second
input is supplied (`src/README.md` lines 304-320, "By default
mapDispatchToProps is just dispatch => ({ dispatch })"): the raw dispatch
function itself is exposed as the single field `dispatch`, unwrapped. -/
def defaultMapDispatchToProps (d : DispatchFn) : List (String × DispatchFn) :=
  [("dispatch", d)]

/-- Modelled from the spec: the second input to the connecting layer is a
sum — either a raw ActionCreatorMap (object shorthand,
`connect(mapStateToProps, { addItem })`, `src/README.md` line 275) or an
explicit `DispatchFn → BoundActionMap` function (spec §9 `BindingSpec`). -/
inductive BindingSpec where
  | objMap : ActionCreatorMap → BindingSpec
  | fn : (DispatchFn → List (String × BoundWrapper)) → BindingSpec

/-- Modelled from the spec: the connecting layer normalizes both modes to
the same `bind` contract — a raw map is bound automatically with the
layer's own dispatch (spec §4.1, "the binder is logically invoked
automatically by the external connecting layer using the same contract"). -/
def normalizeBindingSpec : BindingSpec → DispatchFn → List (String × BoundWrapper)
  | BindingSpec.objMap M, D => (bindActionCreators M D).1
  | BindingSpec.fn f, D => f D

/-- The `addItem`-style action creator used throughout the lessons
(`{ addItem: () => ({ type: "ADD_ITEM" }) }`, spec §8 scenario). -/
def addItem : ActionCreator :=
  fun _ => Value.vobj [("type", Value.vstr "ADD_ITEM")]

/-- The one-argument creator of spec §8:
`setCount: (n) => ({ type: "SET_COUNT", payload: n })`; the JS parameter
`n` is the first supplied argument (`undefined` when absent). -/
def setCount : ActionCreator :=
  fun args =>
    Value.vobj [("type", Value.vstr "SET_COUNT"), ("payload", args.headD Value.vundef)]

/-- A recording dispatch stub that accepts every descriptor and returns it,
as a plain redux store's dispatch does. -/
def dispStub : DispatchFn := fun v => Except.ok v

/-! ### Helper lemmas -/

theorem lookupKey_bindActionCreators (M : ActionCreatorMap) (D : DispatchFn)
    (k : String) :
    lookupKey (bindActionCreators M D).1 k =
      Option.map (fun c => boundWrapper k c D) (lookupKey M k) := by
  induction M with
  | nil => rfl
  | cons kv rest ih =>
    by_cases h : kv.1 = k
    · subst h
      simp [bindActionCreators, lookupKey]
    · simpa [bindActionCreators, lookupKey, h] using ih

theorem creatorCallsOf_append (t1 t2 : List Ev) :
    creatorCallsOf (t1 ++ t2) = creatorCallsOf t1 ++ creatorCallsOf t2 := by
  simp [creatorCallsOf]

theorem dispatchCallsOf_append (t1 t2 : List Ev) :
    dispatchCallsOf (t1 ++ t2) = dispatchCallsOf t1 ++ dispatchCallsOf t2 := by
  simp [dispatchCallsOf]

theorem boundWrapper_trace (k : String) (c : ActionCreator) (D : DispatchFn)
    (A : List Value) :
    (boundWrapper k c D A).2 = [Ev.creatorCall k A, Ev.dispatchCall (c A)] := rfl

/-! ### Claim theorems -/

/-- Claim C1: invoking the bound wrapper `bind(M, D)[k]` with arguments `A`
calls the action creator `M[k]` with `A` exactly once and calls `D` exactly
once, with `D`'s argument equal to the descriptor returned by `M[k](A)`;
no descriptor is cached across invocations, so `n` invocations re-invoke
`M[k]` (and `D`) `n` times, each time with the same argument list and the
freshly recomputed descriptor. -/
theorem bound_wrapper_calls_creator_and_dispatch_once
    (M : ActionCreatorMap) (D : DispatchFn) (k : String) (A : List Value)
    (c : ActionCreator) (w : BoundWrapper) (n : Nat)
    (hc : lookupKey M k = some c)
    (hw : lookupKey (bindActionCreators M D).1 k = some w) :
    creatorCallsOf (w A).2 = [(k, A)] ∧
    dispatchCallsOf (w A).2 = [c A] ∧
    creatorCallsOf (invokeN w A n) = List.replicate n (k, A) ∧
    dispatchCallsOf (invokeN w A n) = List.replicate n (c A) := by
  rw [lookupKey_bindActionCreators, hc] at hw
  have hwe : w = boundWrapper k c D := by
    simpa using hw.symm
  subst hwe
  refine ⟨rfl, rfl, ?_, ?_⟩
  · induction n with
    | zero => rfl
    | succ m ih =>
      rw [invokeN, creatorCallsOf_append, ih, boundWrapper_trace]
      rfl
  · induction n with
    | zero => rfl
    | succ m ih =>
      rw [invokeN, dispatchCallsOf_append, ih, boundWrapper_trace]
      rfl

/-- Witness for C1 at the lesson scenario `M = {addItem}`, `D` a recording
stub, three repeated invocations. -/
theorem bound_wrapper_calls_creator_and_dispatch_once_witness :
    creatorCallsOf
        ((boundWrapper "addItem" addItem dispStub) []).2 = [("addItem", [])] ∧
    dispatchCallsOf
        ((boundWrapper "addItem" addItem dispStub) []).2 =
      [Value.vobj [("type", Value.vstr "ADD_ITEM")]] ∧
    creatorCallsOf
        (invokeN (boundWrapper "addItem" addItem dispStub) [] 3) =
      List.replicate 3 ("addItem", []) ∧
    dispatchCallsOf
        (invokeN (boundWrapper "addItem" addItem dispStub) [] 3) =
      List.replicate 3 (Value.vobj [("type", Value.vstr "ADD_ITEM")]) :=
  bound_wrapper_calls_creator_and_dispatch_once
    [("addItem", addItem)] dispStub "addItem" [] addItem
    (boundWrapper "addItem" addItem dispStub) 3 rfl rfl

/-- Claim C2: the key set of the bound map `bind(M, D)` is identical to the
key set of `M` (same keys in the same order, hence a bijection by key), and
a key is resolvable in the bound map exactly when it is resolvable in `M`,
in which case it maps to a wrapper function. -/
theorem bindActionCreators_preserves_keys (M : ActionCreatorMap) (D : DispatchFn) :
    ((bindActionCreators M D).1).map Prod.fst = M.map Prod.fst ∧
    ∀ k, (lookupKey (bindActionCreators M D).1 k).isSome =
      (lookupKey M k).isSome := by
  constructor
  · simp [bindActionCreators]
  · intro k
    rw [lookupKey_bindActionCreators]
    cases lookupKey M k <;> rfl

/-- Claim C3: the value returned by the bound wrapper `bind(M, D)[k](A)`
equals the value returned by `D(M[k](A))` — the wrapper forwards
dispatch's return uninspected, rather than returning the raw descriptor or
discarding the result. -/
theorem bound_wrapper_returns_dispatch_result
    (M : ActionCreatorMap) (D : DispatchFn) (k : String) (A : List Value)
    (c : ActionCreator) (w : BoundWrapper)
    (hc : lookupKey M k = some c)
    (hw : lookupKey (bindActionCreators M D).1 k = some w) :
    (w A).1 = D (c A) := by
  rw [lookupKey_bindActionCreators, hc] at hw
  have hwe : w = boundWrapper k c D := by
    simpa using hw.symm
  subst hwe
  rfl

/-- Witness for C3: with the stub dispatch that returns its descriptor,
the bound `addItem` wrapper returns that descriptor wrapped in `ok`. -/
theorem bound_wrapper_returns_dispatch_result_witness :
    ((boundWrapper "addItem" addItem dispStub) []).1 =
      dispStub (addItem []) :=
  bound_wrapper_returns_dispatch_result
    [("addItem", addItem)] dispStub "addItem" [] addItem
    (boundWrapper "addItem" addItem dispStub) rfl rfl

/-- Claim C4: if `D` raises on the descriptor produced by `M[k](A)`, the
bound wrapper raises that same error unmodified (no catching, wrapping,
suppression, or retry), and `M[k]` has still been called exactly once. -/
theorem bound_wrapper_propagates_dispatch_error
    (M : ActionCreatorMap) (D : DispatchFn) (k : String) (A : List Value)
    (c : ActionCreator) (w : BoundWrapper) (e : Value)
    (hc : lookupKey M k = some c)
    (hw : lookupKey (bindActionCreators M D).1 k = some w)
    (he : D (c A) = Except.error e) :
    (w A).1 = Except.error e ∧
    creatorCallsOf (w A).2 = [(k, A)] ∧
    dispatchCallsOf (w A).2 = [c A] := by
  rw [lookupKey_bindActionCreators, hc] at hw
  have hwe : w = boundWrapper k c D := by
    simpa using hw.symm
  subst hwe
  exact ⟨he, rfl, rfl⟩

/-- Witness for C4: a dispatch stub that always throws the string `"boom"`;
the bound `addItem` wrapper surfaces exactly that error and the creator
trace still shows a single call. -/
theorem bound_wrapper_propagates_dispatch_error_witness :
    ((boundWrapper "addItem" addItem
        (fun _ => Except.error (Value.vstr "boom"))) []).1 =
      Except.error (Value.vstr "boom") ∧
    creatorCallsOf ((boundWrapper "addItem" addItem
        (fun _ => Except.error (Value.vstr "boom"))) []).2 = [("addItem", [])] ∧
    dispatchCallsOf ((boundWrapper "addItem" addItem
        (fun _ => Except.error (Value.vstr "boom"))) []).2 = [addItem []] :=
  bound_wrapper_propagates_dispatch_error
    [("addItem", addItem)] (fun _ => Except.error (Value.vstr "boom"))
    "addItem" [] addItem
    (boundWrapper "addItem" addItem (fun _ => Except.error (Value.vstr "boom")))
    (Value.vstr "boom") rfl rfl rfl

/-- Claim C5: when no action-creator map or binder is supplied, the
connecting layer exposes the raw dispatch function itself as the single
field `dispatch`, with no wrapping — the exposed field is the very
dispatch function the container holds. -/
theorem default_dispatch_exposed_unwrapped (d : DispatchFn) :
    lookupKey (defaultMapDispatchToProps d) "dispatch" = some d ∧
    (defaultMapDispatchToProps d).map Prod.fst = ["dispatch"] :=
  ⟨rfl, rfl⟩

/-- Claim C6: supplying a raw action-creator map to the connecting layer
(object shorthand) is behaviorally equivalent to supplying a function that
explicitly calls `bind` with that map and dispatch: the normalized bound
maps are equal, and for every key and argument list the looked-up wrappers
produce identical results and traces. -/
theorem objMap_mode_equiv_explicit_bind (M : ActionCreatorMap) (D : DispatchFn) :
    normalizeBindingSpec (BindingSpec.objMap M) D =
      normalizeBindingSpec
        (BindingSpec.fn fun d => (bindActionCreators M d).1) D ∧
    ∀ k A,
      Option.map (fun w : BoundWrapper => w A)
          (lookupKey (normalizeBindingSpec (BindingSpec.objMap M) D) k) =
        Option.map (fun w : BoundWrapper => w A)
          (lookupKey (normalizeBindingSpec
            (BindingSpec.fn fun d => (bindActionCreators M d).1) D) k) :=
  ⟨rfl, fun _ _ => rfl⟩

/-- Claim C7: binding the same `(M, D)` twice yields bound maps whose
wrappers are behaviorally equivalent at every key — same return value and
same trace of calls to `M[k]` and `D` for every argument list. -/
theorem bind_twice_behaviorally_equivalent
    (M : ActionCreatorMap) (D : DispatchFn) (k : String) (A : List Value)
    (w1 w2 : BoundWrapper)
    (h1 : lookupKey (bindActionCreators M D).1 k = some w1)
    (h2 : lookupKey (bindActionCreators M D).1 k = some w2) :
    w1 A = w2 A := by
  have h : some w1 = some w2 := h1.symm.trans h2
  cases h
  rfl

/-- Witness for C7 at the lesson map `{addItem}` and the stub dispatch. -/
theorem bind_twice_behaviorally_equivalent_witness :
    (boundWrapper "addItem" addItem dispStub) [] =
      (boundWrapper "addItem" addItem dispStub) [] :=
  bind_twice_behaviorally_equivalent
    [("addItem", addItem)] dispStub "addItem" []
    (boundWrapper "addItem" addItem dispStub)
    (boundWrapper "addItem" addItem dispStub) rfl rfl

/-- Claim C8: constructing `bind(M, D)` performs no side effect — its
construction trace is empty, so it invokes neither `D` nor any action
creator of `M`, and it returns before any dispatch occurs. -/
theorem bindActionCreators_construction_effect_free
    (M : ActionCreatorMap) (D : DispatchFn) :
    (bindActionCreators M D).2 = [] ∧
    creatorCallsOf (bindActionCreators M D).2 = [] ∧
    dispatchCallsOf (bindActionCreators M D).2 = [] :=
  ⟨rfl, rfl, rfl⟩

/-- Claim C9: arguments are forwarded opaquely and variadically: for
`setCount: (n) => ({ type: "SET_COUNT", payload: n })`, invoking the bound
wrapper from `bind({setCount}, d)` with argument `5` calls the recording
dispatch stub exactly once, with the descriptor
`{ type: "SET_COUNT", payload: 5 }`, and the creator receives the full
argument list `[5]`. -/
theorem setCount_bound_dispatches_payload :
    lookupKey (bindActionCreators [("setCount", setCount)] dispStub).1 "setCount" =
      some (boundWrapper "setCount" setCount dispStub) ∧
    dispatchCallsOf
        ((boundWrapper "setCount" setCount dispStub) [Value.vint 5]).2 =
      [Value.vobj
        [("type", Value.vstr "SET_COUNT"), ("payload", Value.vint 5)]] ∧
    creatorCallsOf
        ((boundWrapper "setCount" setCount dispStub) [Value.vint 5]).2 =
      [("setCount", [Value.vint 5])] :=
  ⟨rfl, rfl, rfl⟩

/-- Claim C10: `mapStateToProps` is a pure projection — for every store
state it returns an object with exactly the single key `items`, whose
value is the state's `items` field unchanged, and it reads no other part
of the state: two states agreeing on `items` produce identical results. -/
theorem mapStateToProps_pure_projection
    (state s1 s2 : List (String × Value))
    (h : getField s1 "items" = getField s2 "items") :
    (mapStateToProps state).map Prod.fst = ["items"] ∧
    lookupKey (mapStateToProps state) "items" = some (getField state "items") ∧
    mapStateToProps s1 = mapStateToProps s2 := by
  refine ⟨rfl, rfl, ?_⟩
  simp [mapStateToProps, h]

/-- Witness for C10: two concrete states that agree on `items` but differ
elsewhere yield the same props, and the produced props carry the `items`
value unchanged. -/
theorem mapStateToProps_pure_projection_witness :
    (mapStateToProps
        [("items", Value.varr [Value.vint 1]), ("other", Value.vint 7)]).map
        Prod.fst = ["items"] ∧
    lookupKey
        (mapStateToProps
          [("items", Value.varr [Value.vint 1]), ("other", Value.vint 7)])
        "items" =
      some (getField
        [("items", Value.varr [Value.vint 1]), ("other", Value.vint 7)]
        "items") ∧
    mapStateToProps
        [("items", Value.varr [Value.vint 1]), ("other", Value.vint 7)] =
      mapStateToProps [("items", Value.varr [Value.vint 1])] :=
  mapStateToProps_pure_projection
    [("items", Value.varr [Value.vint 1]), ("other", Value.vint 7)]
    [("items", Value.varr [Value.vint 1]), ("other", Value.vint 7)]
    [("items", Value.varr [Value.vint 1])] rfl
